import Mathlib

/-
Verification of the lamppost weather scraper (`scrape.py`) against its
natural-language specification.

The development is a shallow embedding of the program:
  * Python strings are `List Char` (`PyStr`);
  * a tabular cell is `Cell` (missing/NaN, numeric, or text);
  * a pandas row is an association list from column name to cell;
  * fallible code (uncaught Python exceptions) is `Except Unit`;
  * each Python function keeps its source name.

Numeric cells are modelled as rationals; Python `float` coercion of text
is modelled by a decimal-literal parser (sign, digits, optional fraction).
Exotic float syntax (exponents, "inf", "nan", surrounding whitespace) is
out of scope of the model.
-/

set_option maxRecDepth 4000

abbrev PyStr := List Char

/-- One tabular cell as seen by the script: missing (None/NaN), a numeric
value, or a piece of text. `pd.isna` is true exactly on `na`. -/
inductive Cell where
  | na : Cell
  | num : Rat → Cell
  | text : PyStr → Cell
deriving DecidableEq, Repr

/-- A pandas row: association list from column name to cell value. -/
abbrev Row := List (PyStr × Cell)

/-- `Series.get k` with default `None`: first entry with the key, else `na`.
A key of `none` (Python `row.get(None)`) is never in the index, so `na`. -/
def rowGet (row : Row) : Option PyStr → Cell
  | none => Cell.na
  | some k =>
    match row.find? (fun p => p.1 == k) with
    | some p => p.2
    | none => Cell.na

/-- Python truthiness of an optional string: `None` and `""` are falsy. -/
def truthy : Option PyStr → Bool
  | none => false
  | some s => !s.isEmpty

/-- `leadsWith pat s` holds when `pat` is an initial segment of `s`. -/
def leadsWith : PyStr → PyStr → Bool
  | [], _ => true
  | _ :: _, [] => false
  | a :: pat, b :: s => a == b && leadsWith pat s

/-- Python's `pat in s` on strings: literal, case-sensitive substring. -/
def containsSub (pat : PyStr) : PyStr → Bool
  | [] => leadsWith pat []
  | c :: rest => leadsWith pat (c :: rest) || containsSub pat rest

/-- `find_column_by_substring` from scrape.py: first column name in which
every required substring occurs (case-sensitively); `none` otherwise. -/
def find_column_by_substring (columns : List PyStr) (substrings : List PyStr) :
    Option PyStr :=
  match columns with
  | [] => none
  | col :: rest =>
    if substrings.all (fun s => containsSub s col) then some col
    else find_column_by_substring rest substrings

theorem leadsWith_iff (pat : PyStr) : ∀ s : PyStr,
    leadsWith pat s = true ↔ ∃ t, s = pat ++ t := by
  induction pat with
  | nil =>
    intro s
    simp [leadsWith]
  | cons a pat ih =>
    intro s
    cases s with
    | nil => simp [leadsWith]
    | cons b t =>
      simp only [leadsWith, Bool.and_eq_true, beq_iff_eq, ih t, List.cons_append]
      constructor
      · rintro ⟨rfl, u, rfl⟩
        exact ⟨u, rfl⟩
      · rintro ⟨u, h⟩
        cases h
        exact ⟨rfl, u, rfl⟩

theorem all_eq_false_exists {α : Type} {f : α → Bool} {l : List α}
    (h : l.all f = false) : ∃ x ∈ l, f x = false := by
  induction l with
  | nil => simp [List.all_nil] at h
  | cons a t ih =>
    cases hfa : f a with
    | false => exact ⟨a, by simp, hfa⟩
    | true =>
      simp only [List.all_cons, hfa, Bool.true_and] at h
      rcases ih h with ⟨x, hx, hfx⟩
      exact ⟨x, by simp [hx], hfx⟩

theorem exists_all_eq_false {α : Type} {f : α → Bool} {l : List α}
    (h : ∃ x ∈ l, f x = false) : l.all f = false := by
  cases hall : l.all f with
  | false => rfl
  | true =>
    rcases h with ⟨x, hx, hfx⟩
    have := List.all_eq_true.mp hall x hx
    rw [hfx] at this
    exact absurd this (by simp)

theorem containsSub_iff (pat : PyStr) : ∀ s : PyStr,
    containsSub pat s = true ↔ ∃ l r, s = l ++ pat ++ r := by
  intro s
  induction s with
  | nil =>
    simp only [containsSub, leadsWith_iff]
    constructor
    · rintro ⟨t, h⟩
      exact ⟨[], t, by simpa using h⟩
    · rintro ⟨l, r, h⟩
      have h2 : l = [] ∧ pat = [] ∧ r = [] := by simpa using h.symm
      rcases h2 with ⟨rfl, rfl, rfl⟩
      exact ⟨[], by simp⟩
  | cons c rest ih =>
    simp only [containsSub, Bool.or_eq_true, leadsWith_iff, ih]
    constructor
    · rintro (⟨t, h⟩ | ⟨l, r, rfl⟩)
      · exact ⟨[], t, by simpa using h⟩
      · exact ⟨c :: l, r, by simp⟩
    · rintro ⟨l, r, h⟩
      cases l with
      | nil => exact Or.inl ⟨r, by simpa using h⟩
      | cons x l =>
        rcases h with h
        simp only [List.cons_append, List.cons.injEq] at h
        rcases h with ⟨rfl, h⟩
        exact Or.inr ⟨l, r, h⟩

/-- A column qualifies when every required substring occurs in it. -/
def qualifies (substrings : List PyStr) (col : PyStr) : Bool :=
  substrings.all (fun s => containsSub s col)

theorem find_column_eq_some_iff (columns substrings : List PyStr) (c : PyStr) :
    find_column_by_substring columns substrings = some c ↔
      ∃ l r, columns = l ++ c :: r ∧ qualifies substrings c = true ∧
        ∀ c' ∈ l, qualifies substrings c' = false := by
  induction columns with
  | nil =>
    simp [find_column_by_substring]
  | cons col rest ih =>
    simp only [find_column_by_substring]
    by_cases hq : qualifies substrings col = true
    · simp only [qualifies] at hq
      rw [if_pos hq]
      constructor
      · rintro h
        cases h
        exact ⟨[], rest, rfl, by simpa [qualifies] using hq, by simp⟩
      · rintro ⟨l, r, hsplit, hc, hl⟩
        cases l with
        | nil =>
          simp only [List.nil_append, List.cons.injEq] at hsplit
          exact congrArg some hsplit.1
        | cons x l =>
          simp only [List.cons_append, List.cons.injEq] at hsplit
          rcases hsplit with ⟨rfl, _⟩
          have hfalse := hl col (by simp)
          have htrue : qualifies substrings col = true := by
            simpa [qualifies] using hq
          rw [htrue] at hfalse
          exact absurd hfalse (by simp)
    · have hq' : ¬ (substrings.all (fun s => containsSub s col) = true) := by
        simpa [qualifies] using hq
      rw [if_neg hq']
      rw [ih]
      constructor
      · rintro ⟨l, r, rfl, hc, hl⟩
        refine ⟨col :: l, r, rfl, hc, ?_⟩
        intro c' hc'
        rcases List.mem_cons.mp hc' with rfl | hmem
        · exact Bool.eq_false_iff.mpr (by simpa [qualifies] using hq')
        · exact hl c' hmem
      · rintro ⟨l, r, hsplit, hc, hl⟩
        cases l with
        | nil =>
          simp only [List.nil_append, List.cons.injEq] at hsplit
          rcases hsplit with ⟨rfl, _⟩
          exact absurd (by simpa [qualifies] using hc) hq'
        | cons x l =>
          simp only [List.cons_append, List.cons.injEq] at hsplit
          rcases hsplit with ⟨rfl, rfl⟩
          exact ⟨l, r, rfl, hc, fun c' h => hl c' (by simp [h])⟩

theorem find_column_eq_none_iff (columns substrings : List PyStr) :
    find_column_by_substring columns substrings = none ↔
      ∀ c ∈ columns, qualifies substrings c = false := by
  induction columns with
  | nil => simp [find_column_by_substring]
  | cons col rest ih =>
    simp only [find_column_by_substring]
    by_cases hq : (substrings.all (fun s => containsSub s col)) = true
    · rw [if_pos hq]
      simp only [reduceCtorEq, false_iff, not_forall]
      exact ⟨col, by simp, by simp [qualifies, hq]⟩
    · rw [if_neg hq, ih]
      constructor
      · intro h c hc
        rcases List.mem_cons.mp hc with rfl | hmem
        · exact Bool.eq_false_iff.mpr (by simpa [qualifies] using hq)
        · exact h c hmem
      · intro h c hc
        exact h c (by simp [hc])

/-- C2: `find_column_by_substring` returns the first column (in input
order) that contains every required substring as a case-sensitive literal
substring; it returns `none` exactly when no column qualifies; any
returned column is an element of the input list and literally contains
every required substring. -/
theorem find_column_first_qualifying (columns substrings : List PyStr) :
    (∀ c, find_column_by_substring columns substrings = some c →
        c ∈ columns ∧
        (∀ s ∈ substrings, ∃ l r, c = l ++ s ++ r) ∧
        ∃ l r, columns = l ++ c :: r ∧
          ∀ c' ∈ l, ∃ s ∈ substrings, containsSub s c' = false) ∧
    (find_column_by_substring columns substrings = none ↔
        ∀ c ∈ columns, ∃ s ∈ substrings, containsSub s c = false) := by
  constructor
  · intro c hc
    rcases (find_column_eq_some_iff columns substrings c).mp hc with
      ⟨l, r, rfl, hq, hl⟩
    refine ⟨by simp, ?_, l, r, rfl, ?_⟩
    · intro s hs
      have hall := List.all_eq_true.mp (by simpa [qualifies] using hq) s hs
      exact (containsSub_iff s c).mp (by simpa using hall)
    · intro c' hc'
      have hfq : (substrings.all (fun s => containsSub s c')) = false := by
        simpa [qualifies] using hl c' hc'
      exact all_eq_false_exists hfq
  · rw [find_column_eq_none_iff]
    constructor
    · intro h c hc
      have hfq : (substrings.all (fun s => containsSub s c)) = false := by
        simpa [qualifies] using h c hc
      exact all_eq_false_exists hfq
    · intro h c hc
      rcases h c hc with ⟨s, hs, hfalse⟩
      simp only [qualifies]
      exact exists_all_eq_false ⟨s, hs, hfalse⟩

/-- Witness for C2 at the spec's own example: the column
"Air temperature (C)" is matched by required substring "Air temperature". -/
theorem find_column_first_qualifying_witness :
    (("Air temperature (C)").toList ∈ [("Lamppost ID").toList, ("Air temperature (C)").toList]) ∧
    (∃ l r, ("Air temperature (C)").toList = l ++ ("Air temperature").toList ++ r) := by
  have h := (find_column_first_qualifying
      [("Lamppost ID").toList, ("Air temperature (C)").toList]
      [("Air temperature").toList]).1
      (("Air temperature (C)").toList) (by decide)
  exact ⟨h.1, h.2.1 (("Air temperature").toList) (by simp)⟩

/-- Digits of a decimal string, most significant first (no validation). -/
def natVal (ds : PyStr) : Nat := ds.foldl (fun a c => a * 10 + (c.toNat - 48)) 0

/-- Split a string at the first '.' (integer part, optional fraction part). -/
def splitDot : PyStr → PyStr × Option PyStr
  | [] => ([], none)
  | '.' :: t => ([], some t)
  | c :: t =>
    let p := splitDot t
    (c :: p.1, p.2)

/-- Python `float(text)` on a plain decimal literal: optional sign, digits,
optional '.' and fraction digits, at least one digit overall. Exponents,
"inf"/"nan" and surrounding whitespace are outside the model. -/
def parseRatText (s : PyStr) : Option Rat :=
  let sgnBody : Int × PyStr :=
    match s with
    | '-' :: t => (-1, t)
    | '+' :: t => (1, t)
    | _ => (1, s)
  match splitDot sgnBody.2 with
  | (ip, none) =>
    if ip.isEmpty || !(ip.all Char.isDigit) then none
    else some ((sgnBody.1 * (natVal ip : Int) : Int) : Rat)
  | (ip, some fp) =>
    if (ip.isEmpty && fp.isEmpty) || !(ip.all Char.isDigit) || !(fp.all Char.isDigit)
    then none
    else some ((sgnBody.1 : Rat) *
      ((natVal ip : Rat) + (natVal fp : Rat) / ((10 : Rat) ^ fp.length)))

/-- Truncation toward zero, as Python `int(float(...))`. -/
def ratTrunc (q : Rat) : Int := Int.tdiv q.num (Int.ofNat q.den)

/-- `to_int_safe` from scrape.py: `None` on a missing cell, `int(float(v))`
otherwise, with any parse failure returning `None`. -/
def to_int_safe : Cell → Option Int
  | Cell.na => none
  | Cell.num q => some (ratTrunc q)
  | Cell.text s => (parseRatText s).map ratTrunc

def isLeap (y : Int) : Bool := y % 4 == 0 && (y % 100 != 0 || y % 400 == 0)

def daysInMonth (y m : Int) : Int :=
  if m == 2 then (if isLeap y then 29 else 28)
  else if m == 4 || m == 6 || m == 9 || m == 11 then 30
  else 31

/-- Validity constraints of Python's `datetime(y, mo, da, ...)` date part
(MINYEAR..MAXYEAR); the constructor raises on violation. -/
def validDate (y mo da : Int) : Bool :=
  decide (1 ≤ y) && decide (y ≤ 9999) && decide (1 ≤ mo) && decide (mo ≤ 12) &&
  decide (1 ≤ da) && decide (da ≤ daysInMonth y mo)

def validTime (h mi s : Int) : Bool :=
  decide (0 ≤ h) && decide (h ≤ 23) && decide (0 ≤ mi) && decide (mi ≤ 59) &&
  decide (0 ≤ s) && decide (s ≤ 59)

def validDatetime (y mo da h mi s : Int) : Bool :=
  validDate y mo da && validTime h mi s

def padZeros (w : Nat) (s : PyStr) : PyStr :=
  List.replicate (w - s.length) '0' ++ s

def fmt2 (n : Int) : PyStr := padZeros 2 (Nat.toDigits 10 n.toNat)

def fmt4 (n : Int) : PyStr := padZeros 4 (Nat.toDigits 10 n.toNat)

/-- `strftime("%Y-%m-%dT%H:%M:%S")`, zero-padded fields. -/
def formatDatetime (y mo da h mi s : Int) : PyStr :=
  fmt4 y ++ ['-'] ++ fmt2 mo ++ ['-'] ++ fmt2 da ++ ['T'] ++ fmt2 h ++ [':'] ++
  fmt2 mi ++ [':'] ++ fmt2 s

/-- The `found` dictionary of scrape.py: per semantic field, the matched
column name or `None`. -/
structure FoundCols where
  lamppost_id : Option PyStr
  air_temperature : Option PyStr
  relative_humidity : Option PyStr
  device_height : Option PyStr
  measurement_year : Option PyStr
  measurement_month : Option PyStr
  measurement_day : Option PyStr
  measurement_hour : Option PyStr
  measurement_minute : Option PyStr
  measurement_second : Option PyStr
deriving DecidableEq, Repr

/-- `build_measurement_datetime_from_row_using_columns` from scrape.py.
The Python `y_col and m_col and d_col` truthiness test is `truthy`; the
`to_int_safe(...) or 0` defaulting collapses `None` and `0` to `0`, which
is `Option.getD 0`; the guarded `datetime(...)` constructor call inside
`try/except` is the `validDatetime` test. -/
def build_measurement_datetime_from_row_using_columns (row : Row) (cm : FoundCols) :
    Option PyStr :=
  if truthy cm.measurement_year && truthy cm.measurement_month && truthy cm.measurement_day then
    match to_int_safe (rowGet row cm.measurement_year),
        to_int_safe (rowGet row cm.measurement_month),
        to_int_safe (rowGet row cm.measurement_day) with
    | some y, some mo, some da =>
      if validDatetime y mo da ((to_int_safe (rowGet row cm.measurement_hour)).getD 0)
          ((to_int_safe (rowGet row cm.measurement_minute)).getD 0)
          ((to_int_safe (rowGet row cm.measurement_second)).getD 0) then
        some (formatDatetime y mo da ((to_int_safe (rowGet row cm.measurement_hour)).getD 0)
          ((to_int_safe (rowGet row cm.measurement_minute)).getD 0)
          ((to_int_safe (rowGet row cm.measurement_second)).getD 0))
      else none
    | _, _, _ => none
  else none

/-- Shared concrete column map resolving only year/month/day. -/
def cmYMD : FoundCols :=
  { lamppost_id := none, air_temperature := none, relative_humidity := none,
    device_height := none,
    measurement_year := some (("Data measurement Year").toList),
    measurement_month := some (("Data measurement Month").toList),
    measurement_day := some (("Data measurement Day").toList),
    measurement_hour := none, measurement_minute := none,
    measurement_second := none }

/-- Row with year 2024, month 13 (invalid), day 5. -/
def rowMonth13 : Row :=
  [ (("Data measurement Year").toList, Cell.num 2024),
    (("Data measurement Month").toList, Cell.num 13),
    (("Data measurement Day").toList, Cell.num 5) ]

/-- Row with year 2024, month 2, day 30 (invalid calendar date). -/
def rowFeb30 : Row :=
  [ (("Data measurement Year").toList, Cell.num 2024),
    (("Data measurement Month").toList, Cell.num 2),
    (("Data measurement Day").toList, Cell.num 30) ]

/-- Row for the spec example: year 2024, month 3, day 5, no time cells. -/
def rowMar5 : Row :=
  [ (("Data measurement Year").toList, Cell.num 2024),
    (("Data measurement Month").toList, Cell.num 3),
    (("Data measurement Day").toList, Cell.num 5) ]

/-- C3 counterexample: with year/month/day columns all resolved and all
three cells numeric (2024, 13, 5), the claim requires a formatted
timestamp string, but the code returns absent (`datetime` raises on
month 13 and the surrounding `except` yields `None`). -/
theorem build_datetime_c3_counterexample :
    truthy cmYMD.measurement_year = true ∧
    truthy cmYMD.measurement_month = true ∧
    truthy cmYMD.measurement_day = true ∧
    to_int_safe (rowGet rowMonth13 cmYMD.measurement_year) = some 2024 ∧
    to_int_safe (rowGet rowMonth13 cmYMD.measurement_month) = some 13 ∧
    to_int_safe (rowGet rowMonth13 cmYMD.measurement_day) = some 5 ∧
    build_measurement_datetime_from_row_using_columns rowMonth13 cmYMD = none := by
  decide

/-- C3 (amended): assembly returns absent when any of the year/month/day
columns is unresolved (Python-falsy) or its cell fails integer coercion;
when all three coerce to integers and the assembled values form a valid
calendar datetime, it returns YYYY-MM-DDTHH:MM:SS with hour, minute and
second defaulting to 0 when their column is unresolved or the cell is
missing or non-numeric. -/
theorem build_datetime_spec (row : Row) (cm : FoundCols) :
    ((truthy cm.measurement_year = false ∨ truthy cm.measurement_month = false ∨
      truthy cm.measurement_day = false ∨
      to_int_safe (rowGet row cm.measurement_year) = none ∨
      to_int_safe (rowGet row cm.measurement_month) = none ∨
      to_int_safe (rowGet row cm.measurement_day) = none) →
      build_measurement_datetime_from_row_using_columns row cm = none) ∧
    (∀ y mo da : Int,
      truthy cm.measurement_year = true → truthy cm.measurement_month = true →
      truthy cm.measurement_day = true →
      to_int_safe (rowGet row cm.measurement_year) = some y →
      to_int_safe (rowGet row cm.measurement_month) = some mo →
      to_int_safe (rowGet row cm.measurement_day) = some da →
      validDatetime y mo da ((to_int_safe (rowGet row cm.measurement_hour)).getD 0)
        ((to_int_safe (rowGet row cm.measurement_minute)).getD 0)
        ((to_int_safe (rowGet row cm.measurement_second)).getD 0) = true →
      build_measurement_datetime_from_row_using_columns row cm =
        some (formatDatetime y mo da
          ((to_int_safe (rowGet row cm.measurement_hour)).getD 0)
          ((to_int_safe (rowGet row cm.measurement_minute)).getD 0)
          ((to_int_safe (rowGet row cm.measurement_second)).getD 0))) := by
  constructor
  · intro h
    unfold build_measurement_datetime_from_row_using_columns
    cases hty : truthy cm.measurement_year <;>
      cases htm : truthy cm.measurement_month <;>
        cases htd : truthy cm.measurement_day <;>
          simp only [Bool.and_false, Bool.false_and, Bool.and_true, Bool.true_and,
            Bool.and_self, if_false, Bool.false_eq_true, if_true]
    · rcases h with h | h | h | h | h | h
      · rw [h] at hty; cases hty
      · rw [h] at htm; cases htm
      · rw [h] at htd; cases htd
      · cases hy : to_int_safe (rowGet row cm.measurement_year) with
        | none => rfl
        | some y => rw [hy] at h; cases h
      · cases hy : to_int_safe (rowGet row cm.measurement_year) with
        | none => rfl
        | some y =>
          cases hm : to_int_safe (rowGet row cm.measurement_month) with
          | none => rfl
          | some m => rw [hm] at h; cases h
      · cases hy : to_int_safe (rowGet row cm.measurement_year) with
        | none => rfl
        | some y =>
          cases hm : to_int_safe (rowGet row cm.measurement_month) with
          | none => rfl
          | some m =>
            cases hd : to_int_safe (rowGet row cm.measurement_day) with
            | none => rfl
            | some d => rw [hd] at h; cases h
  · intro y mo da hty htm htd hy hmo hda hvalid
    unfold build_measurement_datetime_from_row_using_columns
    rw [hty, htm, htd]
    simp only [Bool.and_self, if_true]
    rw [hy, hmo, hda]
    simp only [hvalid, if_true]

/-- Witness for C3 (amended) at the spec's example: year 2024, month 3,
day 5, time columns unresolved, gives "2024-03-05T00:00:00". -/
theorem build_datetime_spec_witness :
    build_measurement_datetime_from_row_using_columns rowMar5 cmYMD =
      some (("2024-03-05T00:00:00").toList) := by
  have h := (build_datetime_spec rowMar5 cmYMD).2 2024 3 5
    (by decide) (by decide) (by decide) (by decide) (by decide) (by decide) (by decide)
  rw [h]
  decide

/-- C4: whenever the year/month/day cells coerce to integers that do not
form a valid calendar date, assembly returns absent (the model is a total
function: the `datetime` exception is caught and surfaces as `None`). -/
theorem build_datetime_invalid_date_absent (row : Row) (cm : FoundCols)
    (y mo da : Int)
    (hy : to_int_safe (rowGet row cm.measurement_year) = some y)
    (hmo : to_int_safe (rowGet row cm.measurement_month) = some mo)
    (hda : to_int_safe (rowGet row cm.measurement_day) = some da)
    (hbad : validDate y mo da = false) :
    build_measurement_datetime_from_row_using_columns row cm = none := by
  unfold build_measurement_datetime_from_row_using_columns
  split
  · rw [hy, hmo, hda]
    simp [validDatetime, hbad]
  · rfl

/-- Witness for C4 at the invalid date 2024-02-30: assembly yields absent. -/
theorem build_datetime_invalid_date_absent_witness :
    to_int_safe (rowGet rowFeb30 cmYMD.measurement_month) = some 2 ∧
    validDate 2024 2 30 = false ∧
    build_measurement_datetime_from_row_using_columns rowFeb30 cmYMD = none :=
  ⟨by decide, by decide,
    build_datetime_invalid_date_absent rowFeb30 cmYMD 2024 2 30
      (by decide) (by decide) (by decide) (by decide)⟩

/-- SEARCH_KEYS from scrape.py, one definition per semantic field. -/
def searchKeysLamppostId : List PyStr := [("Lamppost ID").toList]

def searchKeysAirTemperature : List PyStr := [("Air temperature").toList]

def searchKeysRelativeHumidity : List PyStr := [("Relative humidity").toList]

def searchKeysDeviceHeight : List PyStr := [("Device height").toList]

def searchKeysMeasurementYear : List PyStr :=
  [("Data measurement").toList, ("Year").toList]

def searchKeysMeasurementMonth : List PyStr :=
  [("Data measurement").toList, ("Month").toList]

def searchKeysMeasurementDay : List PyStr :=
  [("Data measurement").toList, ("Day").toList]

def searchKeysMeasurementHour : List PyStr :=
  [("Data measurement").toList, ("Hour").toList]

def searchKeysMeasurementMinute : List PyStr :=
  [("Data measurement").toList, ("Minute").toList]

def searchKeysMeasurementSecond : List PyStr :=
  [("Data measurement").toList, ("Second").toList]

/-- The column-resolution block at the top of
`extract_fields_from_device_df`. -/
def foundColsOf (cols : List PyStr) : FoundCols :=
  { lamppost_id := find_column_by_substring cols searchKeysLamppostId,
    air_temperature := find_column_by_substring cols searchKeysAirTemperature,
    relative_humidity := find_column_by_substring cols searchKeysRelativeHumidity,
    device_height := find_column_by_substring cols searchKeysDeviceHeight,
    measurement_year := find_column_by_substring cols searchKeysMeasurementYear,
    measurement_month := find_column_by_substring cols searchKeysMeasurementMonth,
    measurement_day := find_column_by_substring cols searchKeysMeasurementDay,
    measurement_hour := find_column_by_substring cols searchKeysMeasurementHour,
    measurement_minute := find_column_by_substring cols searchKeysMeasurementMinute,
    measurement_second := find_column_by_substring cols searchKeysMeasurementSecond }

/-- One device feed as parsed by `pd.read_csv`: header columns and rows. -/
structure DeviceDf where
  cols : List PyStr
  rows : List Row
deriving DecidableEq, Repr

/-- The `r.get(found[k]) if found[k] else None` pattern (Python truthiness:
an unresolved or empty column name gives `None`). -/
def cellFor (r : Row) (oc : Option PyStr) : Cell :=
  if truthy oc then rowGet r oc else Cell.na

/-- The `float(x) if (x is not None and not pd.isna(x)) else None` pattern:
a missing cell yields absent; a numeric cell passes through; a text cell
goes through `float`, which raises `ValueError` (uncaught) on a
non-numeric literal. -/
def coerce_float : Cell → Except Unit (Option Rat)
  | Cell.na => Except.ok none
  | Cell.num q => Except.ok (some q)
  | Cell.text s =>
    match parseRatText s with
    | some q => Except.ok (some q)
    | none => Except.error ()

/-- The extractor's per-feed-row output record (location and provenance
are attached later by the caller). -/
structure NormRec where
  lamppost_id : Option Cell
  measurement_datetime : Option PyStr
  air_temperature_c : Option Rat
  relative_humidity_pct : Option Rat
  device_height_m : Option Rat
deriving DecidableEq, Repr

/-- The loop body of `extract_fields_from_device_df` building one output
record from one feed row; an error is an uncaught `ValueError` from
`float`. -/
def buildRecordForRow (found : FoundCols) (r : Row) : Except Unit NormRec :=
  match coerce_float (cellFor r found.air_temperature),
      coerce_float (cellFor r found.relative_humidity),
      coerce_float (cellFor r found.device_height) with
  | Except.ok airT, Except.ok relHum, Except.ok devH =>
    Except.ok
      { lamppost_id :=
          match cellFor r found.lamppost_id with
          | Cell.na => none
          | c => some c,
        measurement_datetime :=
          build_measurement_datetime_from_row_using_columns r found,
        air_temperature_c := airT,
        relative_humidity_pct := relHum,
        device_height_m := devH }
  | _, _, _ => Except.error ()

/-- `extract_fields_from_device_df` from scrape.py. The stray debug line
`print(device_df.iloc[0,0])` raises `IndexError` on a frame with no rows
(or no columns), modelled as the leading error case; otherwise one record
is built per feed row, with `float` errors propagating. -/
def extract_fields_from_device_df (df : DeviceDf) : Except Unit (List NormRec) :=
  if df.rows.isEmpty || df.cols.isEmpty then Except.error ()
  else df.rows.mapM (buildRecordForRow (foundColsOf df.cols))

/-- Feed with an air-temperature column holding non-numeric text. -/
def dfBadTemp : DeviceDf :=
  { cols := [("Air temperature (C)").toList],
    rows := [[ (("Air temperature (C)").toList, Cell.text ("abc").toList) ]] }

/-- C6: at the failing input (air-temperature cell "abc") the extractor
errors — the unguarded `float(air_temp)` raises `ValueError`, which no
caller catches — while a missing cell does coerce to absent, as the
claim's other half states. -/
theorem extract_nonnumeric_text_raises :
    extract_fields_from_device_df dfBadTemp = Except.error () ∧
    coerce_float Cell.na = Except.ok none ∧
    coerce_float (Cell.num ((43 : Rat) / 2)) = Except.ok (some ((43 : Rat) / 2)) := by
  refine ⟨rfl, rfl, rfl⟩

/-- Feed in which no semantic field resolves to any column. -/
def dfNoMatch : DeviceDf :=
  { cols := [("foo").toList],
    rows := [[ (("foo").toList, Cell.text ("bar").toList) ]] }

/-- C7: at the failing input (a one-row feed with no matching column) the
extractor emits one record with every field absent instead of an empty
extraction, so the caller's `extracted.empty` skip does not fire. -/
theorem extract_no_match_emits_absent_record :
    extract_fields_from_device_df dfNoMatch =
      Except.ok [ { lamppost_id := none, measurement_datetime := none,
                    air_temperature_c := none, relative_humidity_pct := none,
                    device_height_m := none } ] ∧
    ([ { lamppost_id := none, measurement_datetime := none,
         air_temperature_c := none, relative_humidity_pct := none,
         device_height_m := none } ] : List NormRec).isEmpty = false := by
  refine ⟨rfl, rfl⟩

/-- Python `str.lower()` (ASCII range suffices for these field names). -/
def lowerStr (s : PyStr) : PyStr := s.map Char.toLower

def latFieldName : PyStr := ("lp_latitude").toList

def lonFieldName : PyStr := ("lp_longitude").toList

/-- Loop of `find_gdb_latlon`, threading the `lat`/`lon` accumulators; a
case-insensitive match overwrites the accumulator each time it occurs. -/
def find_gdb_latlon_go : Row → Option Cell → Option Cell → Option Cell × Option Cell
  | [], lat, lon => (lat, lon)
  | p :: rest, lat, lon =>
    find_gdb_latlon_go rest
      (if lowerStr p.1 == latFieldName then some p.2 else lat)
      (if lowerStr p.1 == lonFieldName then some p.2 else lon)

/-- `find_gdb_latlon` from scrape.py. -/
def find_gdb_latlon (row : Row) : Option Cell × Option Cell :=
  find_gdb_latlon_go row none none

theorem find_gdb_latlon_go_fst_no_match :
    ∀ (row : Row) (lat lon : Option Cell),
      (∀ p ∈ row, lowerStr p.1 ≠ latFieldName) →
      (find_gdb_latlon_go row lat lon).1 = lat := by
  intro row
  induction row with
  | nil => intro lat lon _; rfl
  | cons p rest ih =>
    intro lat lon h
    have hp : (lowerStr p.1 == latFieldName) = false :=
      beq_eq_false_iff_ne.mpr (h p (by simp))
    simp only [find_gdb_latlon_go, hp, if_false, Bool.false_eq_true]
    exact ih _ _ (fun q hq => h q (by simp [hq]))

theorem find_gdb_latlon_go_snd_no_match :
    ∀ (row : Row) (lat lon : Option Cell),
      (∀ p ∈ row, lowerStr p.1 ≠ lonFieldName) →
      (find_gdb_latlon_go row lat lon).2 = lon := by
  intro row
  induction row with
  | nil => intro lat lon _; rfl
  | cons p rest ih =>
    intro lat lon h
    have hp : (lowerStr p.1 == lonFieldName) = false :=
      beq_eq_false_iff_ne.mpr (h p (by simp))
    simp only [find_gdb_latlon_go, hp, if_false, Bool.false_eq_true]
    exact ih _ _ (fun q hq => h q (by simp [hq]))

theorem find_gdb_latlon_go_fst_last :
    ∀ (l : Row) (p : PyStr × Cell) (r : Row) (lat lon : Option Cell),
      lowerStr p.1 = latFieldName →
      (∀ q ∈ r, lowerStr q.1 ≠ latFieldName) →
      (find_gdb_latlon_go (l ++ p :: r) lat lon).1 = some p.2 := by
  intro l
  induction l with
  | nil =>
    intro p r lat lon hp hr
    simp only [List.nil_append, find_gdb_latlon_go, beq_iff_eq, hp, if_true, if_pos]
    exact find_gdb_latlon_go_fst_no_match r _ _ hr
  | cons x l ih =>
    intro p r lat lon hp hr
    simp only [List.cons_append, find_gdb_latlon_go]
    exact ih p r _ _ hp hr

theorem find_gdb_latlon_go_snd_last :
    ∀ (l : Row) (p : PyStr × Cell) (r : Row) (lat lon : Option Cell),
      lowerStr p.1 = lonFieldName →
      (∀ q ∈ r, lowerStr q.1 ≠ lonFieldName) →
      (find_gdb_latlon_go (l ++ p :: r) lat lon).2 = some p.2 := by
  intro l
  induction l with
  | nil =>
    intro p r lat lon hp hr
    simp only [List.nil_append, find_gdb_latlon_go, beq_iff_eq, hp, if_true, if_pos]
    exact find_gdb_latlon_go_snd_no_match r _ _ hr
  | cons x l ih =>
    intro p r lat lon hp hr
    simp only [List.cons_append, find_gdb_latlon_go]
    exact ih p r _ _ hp hr

/-- C8 counterexample: with the two case-variant latitude fields
LP_LATITUDE=1 (first) and lp_latitude=2 (second), the code returns the
second value; the claim's "first match wins" would require the first. -/
theorem find_gdb_latlon_c8_counterexample :
    (find_gdb_latlon
      [ (("LP_LATITUDE").toList, Cell.num 1),
        (("lp_latitude").toList, Cell.num 2) ]).1 = some (Cell.num 2) ∧
    some (Cell.num 2) ≠ some (Cell.num 1) := by
  refine ⟨rfl, by decide⟩

/-- C8 (amended): latitude and longitude are resolved by case-insensitive
comparison of each field name against lp_latitude/lp_longitude; the LAST
matching field wins when several names match (each match overwrites the
accumulator), and the result is absent when no field matches. -/
theorem find_gdb_latlon_spec (row : Row) :
    ((∀ p ∈ row, lowerStr p.1 ≠ latFieldName) → (find_gdb_latlon row).1 = none) ∧
    (∀ l p r, row = l ++ p :: r → lowerStr p.1 = latFieldName →
      (∀ q ∈ r, lowerStr q.1 ≠ latFieldName) →
      (find_gdb_latlon row).1 = some p.2) ∧
    ((∀ p ∈ row, lowerStr p.1 ≠ lonFieldName) → (find_gdb_latlon row).2 = none) ∧
    (∀ l p r, row = l ++ p :: r → lowerStr p.1 = lonFieldName →
      (∀ q ∈ r, lowerStr q.1 ≠ lonFieldName) →
      (find_gdb_latlon row).2 = some p.2) := by
  refine ⟨?_, ?_, ?_, ?_⟩
  · intro h
    exact find_gdb_latlon_go_fst_no_match row none none h
  · intro l p r hsplit hp hr
    rw [hsplit]
    exact find_gdb_latlon_go_fst_last l p r none none hp hr
  · intro h
    exact find_gdb_latlon_go_snd_no_match row none none h
  · intro l p r hsplit hp hr
    rw [hsplit]
    exact find_gdb_latlon_go_snd_last l p r none none hp hr

/-- Witness for C8 (amended): two case-variant longitude fields; the last
one (value 4) wins. -/
theorem find_gdb_latlon_spec_witness :
    (find_gdb_latlon [ (("LP_LONGITUDE").toList, Cell.num 3),
                       (("Lp_Longitude").toList, Cell.num 4) ]).2 = some (Cell.num 4) :=
  (find_gdb_latlon_spec _).2.2.2 [ (("LP_LONGITUDE").toList, Cell.num 3) ]
    ((("Lp_Longitude").toList, Cell.num 4)) [] rfl (by decide) (by simp)

/-- Decimal rendering of an integer for Python `str()`. -/
def intToStr (i : Int) : PyStr :=
  if i < 0 then ['-'] ++ Nat.toDigits 10 i.natAbs else Nat.toDigits 10 i.natAbs

/-- Rendering of a numeric cell for `str()`; a fixed injective rendering
stands in for Python's float/int repr, whose exact text the modelled
claims never depend on. -/
def ratToStr (q : Rat) : PyStr :=
  if q.den == 1 then intToStr q.num
  else intToStr q.num ++ ['/'] ++ Nat.toDigits 10 q.den

/-- Python `str(cell)`. -/
def cellToStr : Cell → PyStr
  | Cell.na => ("nan").toList
  | Cell.num q => ratToStr q
  | Cell.text s => s

def isPySpace (c : Char) : Bool :=
  c == ' ' || c == '\t' || c == '\n' || c == '\r'

/-- Python `str.strip()`. -/
def stripChars (s : PyStr) : PyStr :=
  ((s.dropWhile isPySpace).reverse.dropWhile isPySpace).reverse

/-- DEVICE_URL_COLUMNS from scrape.py, preference order fixed. -/
def DEVICE_URL_COLUMNS : List PyStr :=
  [("DEVICE_04_DATA_URL").toList, ("DEVICE_02_DATA_URL").toList,
   ("DEVICE_01_DATA_URL").toList]

/-- Loop of `find_active_url_from_row` over the candidate URL columns:
the column must be present, non-missing, and nonempty after stripping. -/
def find_active_url_go (row : Row) : List PyStr → Option PyStr
  | [] => none
  | c :: rest =>
    match row.find? (fun p => p.1 == c) with
    | none => find_active_url_go row rest
    | some p =>
      match p.2 with
      | Cell.na => find_active_url_go row rest
      | v =>
        if (stripChars (cellToStr v)).isEmpty then find_active_url_go row rest
        else some (stripChars (cellToStr v))

/-- `find_active_url_from_row` from scrape.py. -/
def find_active_url_from_row (row : Row) : Option PyStr :=
  find_active_url_go row DEVICE_URL_COLUMNS

/-- Outcome of fetching and parsing one device URL — the black-box
collaborators (HTTP client, CSV reader): a transport exception or a
non-success status raised by `raise_for_status` (both caught at the same
`except`), a parse failure in `try_parse_csv_bytes`, or a parsed frame. -/
inductive FeedOutcome where
  | transportFail : FeedOutcome
  | httpFail : FeedOutcome
  | parseFail : FeedOutcome
  | parsed : DeviceDf → FeedOutcome

/-- The run's external world: what fetching each URL yields. -/
structure Env where
  feed : PyStr → FeedOutcome

/-- One fully attached output record: extractor record plus location
metadata (lines 230-234) and provenance. -/
structure OutRow where
  nrec : NormRec
  lp_latitude : Option Cell
  lp_longitude : Option Cell
  source_url : PyStr
deriving DecidableEq, Repr

/-- One iteration of the location loop in `main` (lines 203-237): select
the URL, fetch, parse, extract, attach lat/lon and the source URL.
`ok none` is a logged skip; `error` is an uncaught exception that aborts
the whole run. -/
def processLocation (env : Env) (loc : Row) : Except Unit (Option (List OutRow)) :=
  match find_active_url_from_row loc with
  | none => Except.ok none
  | some url =>
    match env.feed url with
    | FeedOutcome.transportFail => Except.ok none
    | FeedOutcome.httpFail => Except.ok none
    | FeedOutcome.parseFail => Except.ok none
    | FeedOutcome.parsed df =>
      match extract_fields_from_device_df df with
      | Except.error e => Except.error e
      | Except.ok recs =>
        if recs.isEmpty then Except.ok none
        else
          Except.ok (some (recs.map (fun rec =>
            { nrec := rec,
              lp_latitude :=
                match (find_gdb_latlon loc).1 with
                | some c => if c = Cell.na then none else some c
                | none => none,
              lp_longitude :=
                match (find_gdb_latlon loc).2 with
                | some c => if c = Cell.na then none else some c
                | none => none,
              source_url := url })))

/-- The whole location loop: the list of appended per-location extractions
(`collected`), or the uncaught exception that aborted the run. -/
def collectLoop (env : Env) : List Row → Except Unit (List (List OutRow))
  | [] => Except.ok []
  | loc :: rest =>
    match processLocation env loc with
    | Except.error e => Except.error e
    | Except.ok none => collectLoop env rest
    | Except.ok (some block) =>
      match collectLoop env rest with
      | Except.error e => Except.error e
      | Except.ok blocks => Except.ok (block :: blocks)

def urlBad : PyStr := ("http://bad").toList

def urlGood : PyStr := ("http://good").toList

/-- A feed that parses but has zero data rows (header-only CSV). -/
def dfEmptyRows : DeviceDf := { cols := [("Lamppost ID").toList], rows := [] }

def dfGood : DeviceDf :=
  { cols := [("Lamppost ID").toList],
    rows := [[ (("Lamppost ID").toList, Cell.text ("LP1").toList) ]] }

def envC5 : Env :=
  { feed := fun u =>
      if u == urlBad then FeedOutcome.parsed dfEmptyRows
      else FeedOutcome.parsed dfGood }

def locBad : Row := [ (("DEVICE_04_DATA_URL").toList, Cell.text urlBad) ]

def locGood : Row := [ (("DEVICE_04_DATA_URL").toList, Cell.text urlGood) ]

/-- C5: at the failing input — the first location's feed parses to a frame
with zero rows — the whole run aborts (`iloc[0,0]` raises IndexError,
uncaught in the loop), so the second location is never processed, even
though on its own that second location would contribute a block. -/
theorem collect_loop_aborts_on_empty_feed :
    collectLoop envC5 [locBad, locGood] = Except.error () ∧
    processLocation envC5 locBad = Except.error () ∧
    (∃ block, collectLoop envC5 [locGood] = Except.ok [block]) := by
  refine ⟨rfl, rfl, ⟨_, rfl⟩⟩

/-- A row of the pre-existing CSV read with `dtype=str` (line 259): every
field a string or missing. -/
structure ExistingRow where
  lamppost_id : Option PyStr
  measurement_datetime : Option PyStr
  air_temperature_c : Option PyStr
  relative_humidity_pct : Option PyStr
  device_height_m : Option PyStr
  lp_latitude : Option PyStr
  lp_longitude : Option PyStr
  source_url : Option PyStr
deriving DecidableEq, Repr

/-- A row of the combined frame at the dedup step: the two key columns are
string-or-missing (datetime normalized at line 252, identifier through
`astype(str)` at line 275); the other columns keep their loaded or
computed values. -/
structure FinalRow where
  lamppost_id : Option PyStr
  measurement_datetime : Option PyStr
  air_temperature_c : Cell
  relative_humidity_pct : Cell
  device_height_m : Cell
  lp_latitude : Cell
  lp_longitude : Cell
  source_url : Cell
deriving DecidableEq, Repr

/-- Strict parse of the canonical YYYY-MM-DDTHH:MM:SS form — the only form
the assembler ever emits, hence the only one reaching the normalization
step; `pd.to_datetime(errors="coerce")` on anything else is modelled as
NaT (`none`). -/
def parseIsoDatetime : PyStr → Option (Int × Int × Int × Int × Int × Int)
  | [y1, y2, y3, y4, '-', m1, m2, '-', d1, d2, 'T',
     h1, h2, ':', n1, n2, ':', s1, s2] =>
    if [y1, y2, y3, y4, m1, m2, d1, d2, h1, h2, n1, n2, s1, s2].all Char.isDigit
    then
      if validDatetime (natVal [y1, y2, y3, y4] : Nat) (natVal [m1, m2] : Nat)
          (natVal [d1, d2] : Nat) (natVal [h1, h2] : Nat) (natVal [n1, n2] : Nat)
          (natVal [s1, s2] : Nat) then
        some ((natVal [y1, y2, y3, y4] : Nat), (natVal [m1, m2] : Nat),
          (natVal [d1, d2] : Nat), (natVal [h1, h2] : Nat),
          (natVal [n1, n2] : Nat), (natVal [s1, s2] : Nat))
      else none
    else none
  | _ => none

/-- Line 252: re-parse and re-format the datetime column of the new rows;
unparseable values (NaT) become missing. -/
def normalize_measurement_datetime (o : Option PyStr) : Option PyStr :=
  o.bind (fun s =>
    (parseIsoDatetime s).map (fun t =>
      formatDatetime t.1 t.2.1 t.2.2.1 t.2.2.2.1 t.2.2.2.2.1 t.2.2.2.2.2))

def optRatToCell : Option Rat → Cell
  | none => Cell.na
  | some q => Cell.num q

def optCellToCell : Option Cell → Cell
  | none => Cell.na
  | some c => c

def optStrToCell : Option PyStr → Cell
  | none => Cell.na
  | some s => Cell.text s

/-- New-record conversion to a combined-frame row: datetime normalization
(line 252) and identifier `astype(str).where(notna)` — missing stays
missing, anything else becomes its string form (line 275). -/
def outRowToFinal (r : OutRow) : FinalRow :=
  { lamppost_id := r.nrec.lamppost_id.map cellToStr,
    measurement_datetime := normalize_measurement_datetime r.nrec.measurement_datetime,
    air_temperature_c := optRatToCell r.nrec.air_temperature_c,
    relative_humidity_pct := optRatToCell r.nrec.relative_humidity_pct,
    device_height_m := optRatToCell r.nrec.device_height_m,
    lp_latitude := optCellToCell r.lp_latitude,
    lp_longitude := optCellToCell r.lp_longitude,
    source_url := Cell.text r.source_url }

/-- Prior-dataset conversion: loaded strings stay strings (`astype(str)` on
an already-string identifier is the identity, missing stays missing). -/
def existingToFinal (e : ExistingRow) : FinalRow :=
  { lamppost_id := e.lamppost_id,
    measurement_datetime := e.measurement_datetime,
    air_temperature_c := optStrToCell e.air_temperature_c,
    relative_humidity_pct := optStrToCell e.relative_humidity_pct,
    device_height_m := optStrToCell e.device_height_m,
    lp_latitude := optStrToCell e.lp_latitude,
    lp_longitude := optStrToCell e.lp_longitude,
    source_url := optStrToCell e.source_url }

abbrev DedupKey := Option PyStr × Option PyStr

/-- The dedup key (measurement_datetime, lamppost_id). Pandas
`drop_duplicates` treats missing key values as equal to one another, as
does equality on `Option`. -/
def dedupKey (r : FinalRow) : DedupKey := (r.measurement_datetime, r.lamppost_id)

/-- Keep-first deduplication, threading the set of keys already seen. -/
def drop_duplicates_go (seen : List DedupKey) : List FinalRow → List FinalRow
  | [] => []
  | r :: rest =>
    if dedupKey r ∈ seen then drop_duplicates_go seen rest
    else r :: drop_duplicates_go (dedupKey r :: seen) rest

/-- Line 277: `drop_duplicates(subset=["measurement_datetime",
"lamppost_id"], keep="first")`. -/
def drop_duplicates (rows : List FinalRow) : List FinalRow :=
  drop_duplicates_go [] rows

/-- The newly collected rows after conversion, empty if the run aborted. -/
def newFinalRows (env : Env) (locs : List Row) : List FinalRow :=
  match collectLoop env locs with
  | Except.error _ => []
  | Except.ok blocks => (blocks.flatten).map outRowToFinal

def priorFinalRows : Option (List ExistingRow) → List FinalRow
  | none => []
  | some rows => rows.map existingToFinal

/-- Line 266: prior rows first, then the new rows. -/
def combinedRows (env : Env) (locs : List Row) (fs : Option (List ExistingRow)) :
    List FinalRow :=
  priorFinalRows fs ++ newFinalRows env locs

/-- What a run does to the output file. -/
inductive MainResult where
  | untouched : MainResult
  | written : List FinalRow → MainResult
deriving DecidableEq, Repr

/-- `main` after argument parsing and layer reading, as a function of the
environment, the location rows, and the output-file state (`none` =
absent). `untouched` is the early `return` at "No device rows collected"
(the output path is neither read nor written); `written rows` overwrites
the output with `rows`; `error` is an uncaught exception. The
column-completion steps (lines 246-249 and 261-264) are no-ops here
because every modelled row carries all eight fields. -/
def run_main (env : Env) (locs : List Row) (fs : Option (List ExistingRow)) :
    Except Unit MainResult :=
  match collectLoop env locs with
  | Except.error e => Except.error e
  | Except.ok blocks =>
    if blocks.isEmpty then Except.ok MainResult.untouched
    else Except.ok (MainResult.written (drop_duplicates (combinedRows env locs fs)))

theorem drop_duplicates_go_not_seen :
    ∀ (l : List FinalRow) (seen : List DedupKey) (r : FinalRow),
      r ∈ drop_duplicates_go seen l → dedupKey r ∉ seen := by
  intro l
  induction l with
  | nil => intro seen r h; cases h
  | cons x t ih =>
    intro seen r h
    by_cases hx : dedupKey x ∈ seen
    · simp only [drop_duplicates_go, if_pos hx] at h
      exact ih seen r h
    · simp only [drop_duplicates_go, if_neg hx] at h
      rcases List.mem_cons.mp h with rfl | hmem
      · exact hx
      · have hni := ih _ r hmem
        intro hcon
        exact hni (by simp [hcon])

theorem drop_duplicates_go_pairwise :
    ∀ (l : List FinalRow) (seen : List DedupKey),
      (drop_duplicates_go seen l).Pairwise (fun a b => dedupKey a ≠ dedupKey b) := by
  intro l
  induction l with
  | nil => intro seen; exact List.Pairwise.nil
  | cons x t ih =>
    intro seen
    by_cases hx : dedupKey x ∈ seen
    · simp only [drop_duplicates_go, if_pos hx]
      exact ih seen
    · simp only [drop_duplicates_go, if_neg hx]
      refine List.Pairwise.cons ?_ (ih _)
      intro b hb hcon
      exact drop_duplicates_go_not_seen t _ b hb (by simp [← hcon])

theorem drop_duplicates_go_first :
    ∀ (l : List FinalRow) (seen : List DedupKey) (r : FinalRow),
      r ∈ drop_duplicates_go seen l →
      ∃ pre post, l = pre ++ r :: post ∧ ∀ x ∈ pre, dedupKey x ≠ dedupKey r := by
  intro l
  induction l with
  | nil => intro seen r h; cases h
  | cons x t ih =>
    intro seen r h
    by_cases hx : dedupKey x ∈ seen
    · simp only [drop_duplicates_go, if_pos hx] at h
      have hnotin := drop_duplicates_go_not_seen t seen r h
      rcases ih seen r h with ⟨pre, post, rfl, hpre⟩
      refine ⟨x :: pre, post, rfl, ?_⟩
      intro z hz
      rcases List.mem_cons.mp hz with rfl | hmem
      · intro hcon
        rw [hcon] at hx
        exact hnotin hx
      · exact hpre z hmem
    · simp only [drop_duplicates_go, if_neg hx] at h
      rcases List.mem_cons.mp h with rfl | hmem
      · exact ⟨[], t, rfl, by simp⟩
      · have hnotin := drop_duplicates_go_not_seen t _ r hmem
        rcases ih _ r hmem with ⟨pre, post, rfl, hpre⟩
        refine ⟨x :: pre, post, rfl, ?_⟩
        intro z hz
        rcases List.mem_cons.mp hz with rfl | hmem2
        · intro hcon
          exact hnotin (by simp [← hcon])
        · exact hpre z hmem2

theorem drop_duplicates_go_covers :
    ∀ (l : List FinalRow) (seen : List DedupKey) (x : FinalRow), x ∈ l →
      dedupKey x ∈ seen ∨
      ∃ r ∈ drop_duplicates_go seen l, dedupKey r = dedupKey x := by
  intro l
  induction l with
  | nil => intro seen x h; cases h
  | cons y t ih =>
    intro seen x hx
    by_cases hy : dedupKey y ∈ seen
    · simp only [drop_duplicates_go, if_pos hy]
      rcases List.mem_cons.mp hx with rfl | hmem
      · exact Or.inl hy
      · exact ih seen x hmem
    · simp only [drop_duplicates_go, if_neg hy]
      rcases List.mem_cons.mp hx with rfl | hmem
      · exact Or.inr ⟨x, by simp, rfl⟩
      · rcases ih (dedupKey y :: seen) x hmem with hmy | ⟨r, hr, hkey⟩
        · rcases List.mem_cons.mp hmy with heq | hseen
          · exact Or.inr ⟨y, by simp, heq.symm⟩
          · exact Or.inl hseen
        · exact Or.inr ⟨r, by simp [hr], hkey⟩

theorem pairwise_countP_le_one (K : DedupKey) :
    ∀ l : List FinalRow,
      l.Pairwise (fun a b => dedupKey a ≠ dedupKey b) →
      l.countP (fun r => decide (dedupKey r = K)) ≤ 1 := by
  intro l hl
  induction hl with
  | nil => simp
  | @cons a t ha _ ih =>
    rw [List.countP_cons]
    by_cases hk : dedupKey a = K
    · have hzero : t.countP (fun r => decide (dedupKey r = K)) = 0 := by
        rw [List.countP_eq_zero]
        intro b hb
        simp only [decide_eq_true_eq]
        intro hcon
        exact ha b hb (by rw [hk, ← hcon])
      simp [hzero, hk]
    · simp [hk, ih]

/-- Any dataset a run writes is the keep-first deduplication of the
prior-then-new concatenation. -/
theorem run_main_written_eq (env : Env) (locs : List Row)
    (fs : Option (List ExistingRow)) (rows : List FinalRow)
    (h : run_main env locs fs = Except.ok (MainResult.written rows)) :
    rows = drop_duplicates (combinedRows env locs fs) := by
  unfold run_main at h
  cases hc : collectLoop env locs with
  | error e =>
    rw [hc] at h
    simp at h
  | ok blocks =>
    rw [hc] at h
    dsimp only at h
    by_cases hb : blocks.isEmpty
    · rw [if_pos hb] at h
      simp at h
    · rw [if_neg hb] at h
      injection h with h2
      injection h2 with h3
      exact h3.symm

/-- C1: every dataset a run writes is unique on the key pair
(measurement_datetime, lamppost_id); each surviving row is the first
occurrence of its key in the prior-then-new concatenation — so on any
collision the prior (first-seen) record wins — and every key of the
concatenation is still represented. -/
theorem run_main_dedup_spec (env : Env) (locs : List Row)
    (fs : Option (List ExistingRow)) (rows : List FinalRow)
    (h : run_main env locs fs = Except.ok (MainResult.written rows)) :
    rows.Pairwise (fun a b => dedupKey a ≠ dedupKey b) ∧
    (∀ r ∈ rows, ∃ pre post, combinedRows env locs fs = pre ++ r :: post ∧
      ∀ x ∈ pre, dedupKey x ≠ dedupKey r) ∧
    (∀ x ∈ combinedRows env locs fs, ∃ r ∈ rows, dedupKey r = dedupKey x) := by
  have hrows := run_main_written_eq env locs fs rows h
  subst hrows
  refine ⟨drop_duplicates_go_pairwise _ [], ?_, ?_⟩
  · intro r hr
    exact drop_duplicates_go_first _ [] r hr
  · intro x hx
    rcases drop_duplicates_go_covers _ [] x hx with hmem | hfound
    · cases hmem
    · exact hfound

def urlW : PyStr := ("http://w").toList

def dfW : DeviceDf :=
  { cols := [("Lamppost ID").toList],
    rows := [[ (("Lamppost ID").toList, Cell.text ("LP1").toList) ]] }

def envW : Env := { feed := fun _ => FeedOutcome.parsed dfW }

def locW : Row :=
  [ (("DEVICE_04_DATA_URL").toList, Cell.text urlW),
    (("LP_LATITUDE").toList, Cell.num 1) ]

def exRowW : ExistingRow :=
  { lamppost_id := some (("LP1").toList),
    measurement_datetime := some (("2024-03-05T00:00:00").toList),
    air_temperature_c := none, relative_humidity_pct := none,
    device_height_m := none, lp_latitude := none, lp_longitude := none,
    source_url := none }

/-- The new row collected from `locW` after conversion. -/
def finalNewW : FinalRow :=
  { lamppost_id := some (("LP1").toList),
    measurement_datetime := none,
    air_temperature_c := Cell.na, relative_humidity_pct := Cell.na,
    device_height_m := Cell.na, lp_latitude := Cell.num 1,
    lp_longitude := Cell.na, source_url := Cell.text urlW }

/-- Witness for C1: a concrete run over one location and a one-row prior
dataset writes two rows with pairwise distinct keys. -/
theorem run_main_dedup_spec_witness :
    ([existingToFinal exRowW, finalNewW] : List FinalRow).Pairwise
      (fun a b => dedupKey a ≠ dedupKey b) :=
  (run_main_dedup_spec envW [locW] (some [exRowW])
    [existingToFinal exRowW, finalNewW] rfl).1

/-- C9: deduplication treats absent key values as equal to each other; in
any written dataset at most one row has both measurement_datetime and
lamppost_id absent, whatever its other fields hold. -/
theorem run_main_absent_key_unique (env : Env) (locs : List Row)
    (fs : Option (List ExistingRow)) (rows : List FinalRow)
    (h : run_main env locs fs = Except.ok (MainResult.written rows)) :
    rows.countP (fun r => decide (dedupKey r = ((none, none) : DedupKey))) ≤ 1 := by
  have hrows := run_main_written_eq env locs fs rows h
  subst hrows
  exact pairwise_countP_le_one (none, none) _ (drop_duplicates_go_pairwise _ [])

def exAbsent1 : ExistingRow :=
  { lamppost_id := none, measurement_datetime := none,
    air_temperature_c := some (("1").toList), relative_humidity_pct := none,
    device_height_m := none, lp_latitude := none, lp_longitude := none,
    source_url := none }

def exAbsent2 : ExistingRow :=
  { lamppost_id := none, measurement_datetime := none,
    air_temperature_c := some (("2").toList), relative_humidity_pct := none,
    device_height_m := none, lp_latitude := none, lp_longitude := none,
    source_url := none }

/-- Witness for C9: a run whose prior dataset holds two rows with both key
fields absent but different temperatures keeps only one of them. -/
theorem run_main_absent_key_unique_witness :
    ([existingToFinal exAbsent1, finalNewW] : List FinalRow).countP
      (fun r => decide (dedupKey r = ((none, none) : DedupKey))) ≤ 1 :=
  run_main_absent_key_unique envW [locW] (some [exAbsent1, exAbsent2])
    [existingToFinal exAbsent1, finalNewW] rfl

/-- C10: when a run collects zero records (every location was skipped and
none aborted), it terminates normally with the output file neither read
nor written: the result is `untouched` whatever the file state, hence
independent of it, and any pre-existing dataset is left unchanged. -/
theorem run_main_zero_collected_untouched (env : Env) (locs : List Row)
    (fs : Option (List ExistingRow))
    (h : collectLoop env locs = Except.ok []) :
    run_main env locs fs = Except.ok MainResult.untouched ∧
    ∀ fs', run_main env locs fs = run_main env locs fs' := by
  have h1 : ∀ g, run_main env locs g = Except.ok MainResult.untouched := by
    intro g
    unfold run_main
    rw [h]
    rfl
  exact ⟨h1 fs, fun fs' => (h1 fs).trans (h1 fs').symm⟩

/-- Witness for C10: a single location row with no device-URL field is
skipped; the run leaves a pre-existing dataset untouched. -/
theorem run_main_zero_collected_untouched_witness :
    run_main envW [([] : Row)] (some [exRowW]) = Except.ok MainResult.untouched :=
  (run_main_zero_collected_untouched envW [([] : Row)] (some [exRowW]) rfl).1
